import Mathlib

/-!
Verification of the spreadsheet ingestion and normalization routine of the
Data Center Water Risk Dashboard (`utils.py`, consumed by `app.py`).

The embedding models the pandas/openpyxl reading pipeline shallowly:

* a cell of the selected region is either null (blank / NaN) or a text value;
* the raw material of `pd.read_excel(path, sheet_name="Sheet1", usecols="F:N",
  header=h)` is the list of physical rows of Sheet1 restricted to the nine
  columns F..N (`RawSheet`); the read with header index `h` takes row `h` as
  the header row and the rows below it as data rows, padding every row to the
  fixed width 9 with nulls exactly as pandas materializes the F:N range;
* a blank header cell is materialized by pandas as the auto-generated
  placeholder name `"Unnamed: k"` (k = absolute column index, F being 5);
* the filesystem is abstracted by `FileState`: the file is missing, or it is
  present but unparsable (corrupt file, missing sheet, range out of bounds --
  in which case `pd.read_excel` raises), or it is present and parses to a
  given `RawSheet`;
* Python's `str.strip()` is `pyStrip` (drop whitespace from both ends);
  `astype(str)` renders a null cell as the string `"nan"` (`Cell.astype`);
* `load_excel` returns `Except Unit (Option DataFrame)`: `.error ()` is the
  propagated read exception, `.ok none` is the Python `None` (Absent) result,
  `.ok (some df)` is the normalized table.  `load_excelT` additionally counts
  the number of `_read` attempts performed.
-/

/-- A cell of the selected spreadsheet region: blank/NaN, or a text value. -/
inductive Cell where
  | null : Cell
  | str (s : String) : Cell
deriving DecidableEq, Repr

/-- `True` on the blank/NaN cell; mirrors the pandas null test used by
`dropna`. -/
def Cell.isNull : Cell → Bool
  | Cell.null => true
  | Cell.str _ => false

/-- Pandas `astype(str)` on one cell: a NaN renders as the string `"nan"`. -/
def Cell.astype : Cell → String
  | Cell.null => "nan"
  | Cell.str s => s

/-- Python `str.strip()` on the character list: remove leading and trailing
whitespace. -/
def pyStripList (l : List Char) : List Char :=
  (l.dropWhile Char.isWhitespace).rdropWhile Char.isWhitespace

/-- Python `str.strip()` (also pandas `.str.strip()` on one name). -/
def pyStrip (s : String) : String :=
  ⟨pyStripList s.data⟩

/-- Sheet1 of the workbook restricted to columns F:N: the list of its physical
rows (row index 0 is the first physical row), each row the list of its cells
in those nine columns. -/
structure RawSheet where
  rows : List (List Cell)
deriving DecidableEq, Repr

/-- A pandas DataFrame as the loader uses it: named columns and data rows. -/
structure DataFrame where
  cols : List String
  rows : List (List Cell)
deriving DecidableEq, Repr

/-- Pandas materializes the F:N selection as exactly nine cells per row,
blank/absent cells becoming NaN. -/
def padRow (r : List Cell) : List Cell :=
  (r ++ List.replicate 9 Cell.null).take 9

/-- The column name pandas gives position `j` of the selection: the header
cell's text if present, else the auto-generated placeholder `"Unnamed: k"`
with `k` the absolute column index (column F is index 5). -/
def headerName (j : Nat) : Cell → String
  | Cell.null => "Unnamed: " ++ toString (5 + j)
  | Cell.str s => s

/-- Names of the nine selected columns, from the header row's cells. -/
def headerNames (j : Nat) : List Cell → List String
  | [] => []
  | c :: cs => headerName j c :: headerNames (j + 1) cs

/-- The inner `_read(header_row)` of `load_excel`:
`pd.read_excel(DEFAULT_DATA_PATH, sheet_name="Sheet1", usecols="F:N",
header=header_row, engine="openpyxl")` on a parsable workbook.  Physical row
`header_row` provides the column names; the rows below it are the data rows. -/
def read_excel (sheet : RawSheet) (header_row : Nat) : DataFrame :=
  { cols := headerNames 0 (padRow (sheet.rows.getD header_row []))
  , rows := (sheet.rows.drop (header_row + 1)).map padRow }

/-- The test `df.columns[0].startswith("Unnamed")` on line 35 of `utils.py`. -/
def startsWithUnnamed (name : String) : Bool :=
  List.isPrefixOf ("Unnamed".toList) (name.toList)

/-- First-column placeholder test that triggers the header-row fallback. -/
def firstColPlaceholder (df : DataFrame) : Bool :=
  startsWithUnnamed (df.cols.headD "")

/-- First cell of a row: the key-column (city) value, `df.columns[0]` being
the key column. -/
def keyCell (r : List Cell) : Cell :=
  r.headD Cell.null

/-- Lines 38-43 of `utils.py`: strip whitespace from column names, drop rows
whose key is null (`dropna`), drop rows whose key text strips to the empty
string, and re-index (re-indexing is implicit in the list representation). -/
def normalizeTable (df : DataFrame) : DataFrame :=
  let cols1 := df.cols.map pyStrip
  let rows1 := df.rows.filter (fun r => !(keyCell r).isNull)
  let rows2 := rows1.filter (fun r => pyStrip (Cell.astype (keyCell r)) != "")
  { cols := cols1, rows := rows2 }

/-- State of the filesystem at `DEFAULT_DATA_PATH`: no file, a file that
`pd.read_excel` fails to parse (corrupt file, missing sheet, column range out
of bounds -- it raises), or a file that parses to the given sheet region. -/
inductive FileState where
  | missing : FileState
  | unreadable : FileState
  | readable (sheet : RawSheet) : FileState
deriving DecidableEq

/-- `load_excel` of `utils.py`, instrumented with the number of `_read`
attempts it performs.  `Except.error ()` is the propagated parse exception;
`Except.ok none` is the Python `None` returned when the file is missing. -/
def load_excelT (fs : FileState) : Except Unit (Option DataFrame) × Nat :=
  match fs with
  | FileState.missing => (Except.ok none, 0)
  | FileState.unreadable => (Except.error (), 1)
  | FileState.readable sheet =>
      let df := read_excel sheet 2
      if firstColPlaceholder df then
        (Except.ok (some (normalizeTable (read_excel sheet 3))), 2)
      else
        (Except.ok (some (normalizeTable df)), 1)

/-- `load_excel` of `utils.py`: the returned value. -/
def load_excel (fs : FileState) : Except Unit (Option DataFrame) :=
  (load_excelT fs).1

/-- Number of `_read` attempts a call to `load_excel` performs. -/
def load_excel_reads (fs : FileState) : Nat :=
  (load_excelT fs).2

/-- `get_metric_columns` of `utils.py`: `[]` when the frame is `None`, empty
(`df.empty`: some axis has length zero) or has fewer than two columns, else
all column names but the first. -/
def get_metric_columns (df : Option DataFrame) : List String :=
  match df with
  | none => []
  | some d =>
      if d.rows.isEmpty || d.cols.isEmpty || d.cols.length < 2 then []
      else d.cols.drop 1

/-- Row selection of `make_bar_chart` in `app.py` (lines 167-171):
`row = df[df[city_col].astype(str).str.strip() == city_name]`,
`None` if empty, else `row.iloc[0]` (the first matching row). -/
def make_bar_chart_row (df : DataFrame) (city_name : String) : Option (List Cell) :=
  match df.rows.filter (fun r => pyStrip (Cell.astype (keyCell r)) == city_name) with
  | [] => none
  | r :: _ => some r

/-- The header row index `load_excel` ends up using: 3 when the first read's
first column name is a placeholder, else 2. -/
def chosenHeader (sheet : RawSheet) : Nat :=
  if firstColPlaceholder (read_excel sheet 2) then 3 else 2

/-- The combined row-retention test of lines 41-42 of `utils.py`: the key is
not null and its text does not strip to the empty string. -/
def keyOk (r : List Cell) : Bool :=
  !(keyCell r).isNull && (pyStrip (Cell.astype (keyCell r)) != "")

/-- A concrete six-row workbook: two skipped rows, a header row in physical
row 3, a data row keyed `"  Austin  "`, a data row with a whitespace-only
key, and a data row keyed `"Boston"`. -/
def exSheet : RawSheet :=
  ⟨[[], [],
    [Cell.str "City", Cell.str "Score"],
    [Cell.str "  Austin  ", Cell.str "10"],
    [Cell.str "   ", Cell.str "3"],
    [Cell.str "Boston", Cell.str "7"]]⟩

/-- The table `load_excel` produces from `exSheet`. -/
def exFrame : DataFrame :=
  { cols := ["City", "Score", "Unnamed: 7", "Unnamed: 8", "Unnamed: 9",
             "Unnamed: 10", "Unnamed: 11", "Unnamed: 12", "Unnamed: 13"]
  , rows := [padRow [Cell.str "  Austin  ", Cell.str "10"],
             padRow [Cell.str "Boston", Cell.str "7"]] }

theorem load_exSheet : load_excel (FileState.readable exSheet) = Except.ok (some exFrame) := rfl

theorem dropWhile_rdropWhile_dropWhile (p : Char → Bool) (l : List Char) :
    List.dropWhile p (List.rdropWhile p (List.dropWhile p l)) =
      List.rdropWhile p (List.dropWhile p l) := by
  obtain ⟨t, ht⟩ := List.rdropWhile_prefix p (List.dropWhile p l)
  cases hR : List.rdropWhile p (List.dropWhile p l) with
  | nil => simp
  | cons a R =>
    have hD : List.dropWhile p l = a :: (R ++ t) := by
      rw [← ht, hR, List.cons_append]
    have hhead : ¬p a := by
      have hidem := List.dropWhile_idempotent p l
      rw [hD] at hidem
      have := (List.dropWhile_eq_self_iff).mp hidem (by simp)
      simpa using this
    rw [List.dropWhile_cons, if_neg hhead]

theorem pyStripList_idem (l : List Char) : pyStripList (pyStripList l) = pyStripList l := by
  unfold pyStripList
  rw [dropWhile_rdropWhile_dropWhile, List.rdropWhile_idempotent]

theorem pyStrip_idem (s : String) : pyStrip (pyStrip s) = pyStrip s := by
  unfold pyStrip
  exact congrArg String.mk (pyStripList_idem s.data)

theorem padRow_keyCell (r : List Cell) : keyCell (padRow r) = keyCell r := by
  cases r <;> rfl

theorem keyOk_padRow (r : List Cell) : keyOk (padRow r) = keyOk r := by
  unfold keyOk
  rw [padRow_keyCell]

theorem read_excel_cols_cons (s : RawSheet) (h : Nat) :
    ∃ rest, (read_excel s h).cols =
      headerName 0 (keyCell (s.rows.getD h [])) :: rest := by
  unfold read_excel
  cases hr : s.rows.getD h [] with
  | nil => exact ⟨_, rfl⟩
  | cons a t => exact ⟨_, rfl⟩

theorem normalizeTable_cols (df : DataFrame) :
    (normalizeTable df).cols = df.cols.map pyStrip := rfl

theorem normalizeTable_rows (df : DataFrame) :
    (normalizeTable df).rows = df.rows.filter keyOk := by
  show List.filter _ (List.filter _ df.rows) = _
  rw [List.filter_filter]
  apply List.filter_congr
  intro r _
  unfold keyOk
  rw [Bool.and_comm]

theorem load_excel_readable (s : RawSheet) :
    load_excel (FileState.readable s) =
      Except.ok (some (normalizeTable (read_excel s (chosenHeader s)))) := by
  unfold load_excel load_excelT chosenHeader
  by_cases h : firstColPlaceholder (read_excel s 2) <;> simp [h]

theorem load_excel_reads_readable (s : RawSheet) :
    load_excel_reads (FileState.readable s) =
      if firstColPlaceholder (read_excel s 2) then 2 else 1 := by
  unfold load_excel_reads load_excelT
  by_cases h : firstColPlaceholder (read_excel s 2) <;> simp [h]

theorem make_bar_chart_row_find (df : DataFrame) (city_name : String) :
    make_bar_chart_row df city_name =
      df.rows.find? (fun r => pyStrip (Cell.astype (keyCell r)) == city_name) := by
  unfold make_bar_chart_row
  rw [← List.filter_head?]
  cases df.rows.filter (fun r => pyStrip (Cell.astype (keyCell r)) == city_name) <;> rfl

/-- C1: `load()` first reads with header row index 2; exactly when the first
resulting column name matches the auto-generated placeholder pattern it
discards that read and re-reads with header row index 3; it performs at most
two read attempts; and when row 3's first selected cell is blank while row 4
holds a valid label, the returned table's first column name equals row 4's
label, not a placeholder. -/
theorem load_header_fallback_spec :
    (∀ s : RawSheet,
        load_excel (FileState.readable s) =
          Except.ok (some (normalizeTable
            (read_excel s (if firstColPlaceholder (read_excel s 2) then 3 else 2)))) ∧
        load_excel_reads (FileState.readable s) =
          (if firstColPlaceholder (read_excel s 2) then 2 else 1) ∧
        load_excel_reads (FileState.readable s) ≤ 2) ∧
    (∀ (s : RawSheet) (L : String),
        keyCell (s.rows.getD 2 []) = Cell.null →
        keyCell (s.rows.getD 3 []) = Cell.str L →
        pyStrip L = L →
        startsWithUnnamed L = false →
        ∃ d, load_excel (FileState.readable s) = Except.ok (some d) ∧
          d.cols.headD "" = L ∧ startsWithUnnamed (d.cols.headD "") = false) := by
  constructor
  · intro s
    refine ⟨?_, load_excel_reads_readable s, ?_⟩
    · rw [load_excel_readable]
      rfl
    · rw [load_excel_reads_readable]
      by_cases h : firstColPlaceholder (read_excel s 2) <;> simp [h]
  · intro s L h2 h3 hL hU
    have hpl : firstColPlaceholder (read_excel s 2) = true := by
      obtain ⟨rest, hc⟩ := read_excel_cols_cons s 2
      unfold firstColPlaceholder
      rw [hc, List.headD_cons, h2]
      decide
    have hch : chosenHeader s = 3 := by
      unfold chosenHeader
      rw [hpl]
      rfl
    have hcols : (normalizeTable (read_excel s 3)).cols.headD "" = L := by
      obtain ⟨rest, hc⟩ := read_excel_cols_cons s 3
      rw [normalizeTable_cols, hc, h3]
      simpa [headerName] using hL
    refine ⟨normalizeTable (read_excel s 3), ?_, hcols, ?_⟩
    · rw [load_excel_readable, hch]
    · rw [hcols]
      exact hU

/-- C2: `load()` removes exactly those rows whose key-column value is null or
whose value converted to text and stripped of whitespace is empty; every row
with a non-blank key value is retained. -/
theorem load_blank_key_filtering :
    (∀ s : RawSheet, ∃ d, load_excel (FileState.readable s) = Except.ok (some d) ∧
        d.rows = (read_excel s (chosenHeader s)).rows.filter keyOk) ∧
    (∀ r : List Cell, keyOk r = false ↔
        keyCell r = Cell.null ∨ pyStrip (Cell.astype (keyCell r)) = "") ∧
    (∀ (s : RawSheet) (d : DataFrame) (r : List Cell),
        load_excel (FileState.readable s) = Except.ok (some d) →
        r ∈ (read_excel s (chosenHeader s)).rows → keyOk r = true → r ∈ d.rows) := by
  refine ⟨?_, ?_, ?_⟩
  · intro s
    exact ⟨_, load_excel_readable s, normalizeTable_rows _⟩
  · intro r
    unfold keyOk
    cases hc : keyCell r with
    | null => simp [Cell.isNull]
    | str v => simp [Cell.isNull, Cell.astype]
  · intro s d r hload hmem hok
    have heq := load_excel_readable s
    rw [hload] at heq
    have hd : d = normalizeTable (read_excel s (chosenHeader s)) :=
      Option.some.inj (Except.ok.inj heq)
    rw [hd, normalizeTable_rows]
    exact List.mem_filter.mpr ⟨hmem, hok⟩

/-- C3: when the file at the fixed path does not exist, `load()` returns the
Absent result (`None`, not an exception and not a table), and performs no
read attempt. -/
theorem load_missing_returns_absent :
    load_excel FileState.missing = Except.ok none ∧
    load_excel_reads FileState.missing = 0 :=
  ⟨rfl, rfl⟩

/-- C4: the rows returned by `load()` keep the source file's relative order
(a sublist of the read data rows, no re-sorting), and after blank-key
filtering they are re-indexed contiguously from zero: for a 3-data-row input
whose rows 1 and 3 have valid keys and row 2 is blank-keyed, the output is
exactly original row 1 then original row 3, at positions 0 and 1. -/
theorem load_row_order_preserved :
    (∀ (s : RawSheet) (d : DataFrame),
        load_excel (FileState.readable s) = Except.ok (some d) →
        d.rows.Sublist (read_excel s (chosenHeader s)).rows) ∧
    (∀ x0 x1 hdr r1 r2 r3 : List Cell,
        firstColPlaceholder (read_excel ⟨[x0, x1, hdr, r1, r2, r3]⟩ 2) = false →
        keyOk r1 = true → keyOk r2 = false → keyOk r3 = true →
        ∃ d, load_excel (FileState.readable ⟨[x0, x1, hdr, r1, r2, r3]⟩) =
            Except.ok (some d) ∧
          d.rows = [padRow r1, padRow r3] ∧
          d.rows.getD 0 [] = padRow r1 ∧ d.rows.getD 1 [] = padRow r3) := by
  constructor
  · intro s d hload
    have heq := load_excel_readable s
    rw [hload] at heq
    have hd : d = normalizeTable (read_excel s (chosenHeader s)) :=
      Option.some.inj (Except.ok.inj heq)
    rw [hd, normalizeTable_rows]
    exact List.filter_sublist _
  · intro x0 x1 hdr r1 r2 r3 hpl h1 h2 h3
    have hch : chosenHeader ⟨[x0, x1, hdr, r1, r2, r3]⟩ = 2 := by
      unfold chosenHeader
      rw [hpl]
      rfl
    have hrows : (read_excel ⟨[x0, x1, hdr, r1, r2, r3]⟩ 2).rows =
        [padRow r1, padRow r2, padRow r3] := rfl
    have hfilter : (normalizeTable
        (read_excel ⟨[x0, x1, hdr, r1, r2, r3]⟩ (chosenHeader ⟨[x0, x1, hdr, r1, r2, r3]⟩))).rows =
        [padRow r1, padRow r3] := by
      rw [normalizeTable_rows, hch, hrows]
      simp [List.filter_cons, keyOk_padRow, h1, h2, h3]
    refine ⟨_, load_excel_readable _, hfilter, ?_, ?_⟩ <;> rw [hfilter] <;> rfl

/-- C5: `get_metric_columns` returns the empty sequence whenever the table is
absent (`None`), empty, or has fewer than 2 columns, and otherwise returns
exactly the columns after the first, in original order; it is a pure
function of its argument. -/
theorem get_metric_columns_spec :
    get_metric_columns none = [] ∧
    (∀ d : DataFrame, d.rows = [] ∨ d.cols.length < 2 →
        get_metric_columns (some d) = []) ∧
    (∀ d : DataFrame, d.rows ≠ [] → 2 ≤ d.cols.length →
        get_metric_columns (some d) = d.cols.drop 1) ∧
    get_metric_columns (some ⟨["City", "Score", "Rank"],
      [[Cell.str "Austin", Cell.str "1", Cell.str "2"]]⟩) = ["Score", "Rank"] ∧
    get_metric_columns (some ⟨["City"], [[Cell.str "Austin"]]⟩) = [] := by
  refine ⟨rfl, ?_, ?_, by decide, by decide⟩
  · intro d hd
    rcases hd with h | h
    · simp [get_metric_columns, h]
    · simp [get_metric_columns, h]
  · intro d h1 h2
    have hc : d.cols ≠ [] := by
      intro h
      rw [h] at h2
      simp at h2
    have h3 : ¬d.cols.length < 2 := not_lt.mpr h2
    simp [get_metric_columns, h1, hc, h3]

/-- C6: when the file exists but parsing fails, `load()` propagates a fatal
read error (the exception) and returns no partial or degraded table; this
outcome is distinct from the file-not-found case, which yields the non-error
Absent result. -/
theorem load_parse_error_propagates :
    load_excel FileState.unreadable = Except.error () ∧
    load_excel FileState.missing = Except.ok none ∧
    load_excel FileState.unreadable ≠ load_excel FileState.missing := by
  refine ⟨rfl, rfl, ?_⟩
  intro h
  simp [load_excel, load_excelT] at h

/-- C7: every column name of the table returned by `load()` has leading and
trailing whitespace removed (the names are the stripped read names, each one
fixed by stripping); in particular `"  Water Stress  "` strips to
`"Water Stress"` exactly. -/
theorem load_column_names_trimmed :
    (∀ (s : RawSheet) (d : DataFrame),
        load_excel (FileState.readable s) = Except.ok (some d) →
        d.cols = (read_excel s (chosenHeader s)).cols.map pyStrip ∧
        ∀ name ∈ d.cols, pyStrip name = name) ∧
    pyStrip "  Water Stress  " = "Water Stress" := by
  constructor
  · intro s d hload
    have heq := load_excel_readable s
    rw [hload] at heq
    have hd : d = normalizeTable (read_excel s (chosenHeader s)) :=
      Option.some.inj (Except.ok.inj heq)
    rw [hd]
    refine ⟨normalizeTable_cols _, ?_⟩
    intro name hname
    rw [normalizeTable_cols] at hname
    obtain ⟨x, _, hx⟩ := List.mem_map.mp hname
    rw [← hx]
    exact pyStrip_idem x
  · decide

/-- C8: two calls of `load()` on an unchanged file yield results equal in
content and column names (the result is a function of the file state alone),
and every call on an existing file re-reads it (at least one read attempt,
no cache). -/
theorem load_deterministic_no_cache :
    (∀ (fs : FileState) (d1 d2 : DataFrame),
        load_excel fs = Except.ok (some d1) → load_excel fs = Except.ok (some d2) →
        d1.cols = d2.cols ∧ d1.rows = d2.rows) ∧
    (∀ fs : FileState, fs ≠ FileState.missing → 1 ≤ load_excel_reads fs) := by
  constructor
  · intro fs d1 d2 h1 h2
    rw [h1] at h2
    have hd : d1 = d2 := Option.some.inj (Except.ok.inj h2)
    rw [hd]
    exact ⟨rfl, rfl⟩
  · intro fs hfs
    cases fs with
    | missing => exact absurd rfl hfs
    | unreadable => exact le_refl 1
    | readable s =>
        rw [load_excel_reads_readable]
        by_cases h : firstColPlaceholder (read_excel s 2) <;> simp [h]

/-- C9: key-column values are not deduplicated by `load()` (two rows sharing
one key both survive), and the comparison view's lookup returns the first
matching row in table order. -/
theorem duplicate_keys_first_match :
    (∀ (d : DataFrame) (city : String),
        make_bar_chart_row d city =
          d.rows.find? (fun r => pyStrip (Cell.astype (keyCell r)) == city)) ∧
    (∀ (x0 x1 hdr r1 r2 : List Cell) (k : String),
        firstColPlaceholder (read_excel ⟨[x0, x1, hdr, r1, r2]⟩ 2) = false →
        keyCell r1 = Cell.str k → keyCell r2 = Cell.str k → pyStrip k ≠ "" →
        ∃ d, load_excel (FileState.readable ⟨[x0, x1, hdr, r1, r2]⟩) =
            Except.ok (some d) ∧
          d.rows = [padRow r1, padRow r2] ∧
          make_bar_chart_row d (pyStrip k) = some (padRow r1)) := by
  constructor
  · exact make_bar_chart_row_find
  · intro x0 x1 hdr r1 r2 k hpl h1 h2 hk
    have hch : chosenHeader ⟨[x0, x1, hdr, r1, r2]⟩ = 2 := by
      unfold chosenHeader
      rw [hpl]
      rfl
    have hko1 : keyOk r1 = true := by
      unfold keyOk
      rw [h1]
      simp [Cell.isNull, Cell.astype, hk]
    have hko2 : keyOk r2 = true := by
      unfold keyOk
      rw [h2]
      simp [Cell.isNull, Cell.astype, hk]
    have hrows : (read_excel ⟨[x0, x1, hdr, r1, r2]⟩ 2).rows =
        [padRow r1, padRow r2] := rfl
    have hfilter : (normalizeTable (read_excel ⟨[x0, x1, hdr, r1, r2]⟩
        (chosenHeader ⟨[x0, x1, hdr, r1, r2]⟩))).rows = [padRow r1, padRow r2] := by
      rw [normalizeTable_rows, hch, hrows]
      simp [List.filter_cons, keyOk_padRow, hko1, hko2]
    refine ⟨_, load_excel_readable _, hfilter, ?_⟩
    rw [make_bar_chart_row_find, hfilter]
    have hkc : keyCell (padRow r1) = Cell.str k := by
      rw [padRow_keyCell, h1]
    simp [List.find?, hkc, Cell.astype]

/-- C10: `load()` filters by the stripped text of the key but never modifies
the cell values of retained rows (every returned row occurs verbatim among
the read data rows); a row keyed `"  Austin  "` is kept with its whitespace
intact, and the comparison view's lookup finds it by stripping on its side. -/
theorem load_frame_values_untouched :
    (∀ (s : RawSheet) (d : DataFrame) (r : List Cell),
        load_excel (FileState.readable s) = Except.ok (some d) → r ∈ d.rows →
        r ∈ (read_excel s (chosenHeader s)).rows) ∧
    (∃ d, load_excel (FileState.readable exSheet) = Except.ok (some d) ∧
        padRow [Cell.str "  Austin  ", Cell.str "10"] ∈ d.rows ∧
        keyCell (padRow [Cell.str "  Austin  ", Cell.str "10"]) = Cell.str "  Austin  " ∧
        make_bar_chart_row d "Austin" =
          some (padRow [Cell.str "  Austin  ", Cell.str "10"])) := by
  constructor
  · intro s d r hload hmem
    have heq := load_excel_readable s
    rw [hload] at heq
    have hd : d = normalizeTable (read_excel s (chosenHeader s)) :=
      Option.some.inj (Except.ok.inj heq)
    rw [hd, normalizeTable_rows] at hmem
    exact (List.mem_filter.mp hmem).1
  · exact ⟨exFrame, load_exSheet, by decide, rfl, by decide⟩

/-- A workbook whose physical row 3 has a blank first selected cell while
physical row 4 carries the label `"Water Risk"`. -/
def fbSheet : RawSheet :=
  ⟨[[], [], [Cell.null, Cell.str "X"], [Cell.str "Water Risk", Cell.str "Score"]]⟩

theorem load_header_fallback_spec_witness :
    ∃ d, load_excel (FileState.readable fbSheet) = Except.ok (some d) ∧
      d.cols.headD "" = "Water Risk" ∧
      startsWithUnnamed (d.cols.headD "") = false :=
  load_header_fallback_spec.2 fbSheet "Water Risk" (by decide) (by decide)
    (by decide) (by decide)

theorem load_blank_key_filtering_witness :
    padRow [Cell.str "  Austin  ", Cell.str "10"] ∈ exFrame.rows :=
  load_blank_key_filtering.2.2 exSheet exFrame
    (padRow [Cell.str "  Austin  ", Cell.str "10"]) rfl (by decide) (by decide)

theorem load_row_order_preserved_witness :
    ∃ d, load_excel (FileState.readable
        ⟨[[], [], [Cell.str "City"], [Cell.str "A"], [Cell.null], [Cell.str "B"]]⟩) =
      Except.ok (some d) ∧
      d.rows = [padRow [Cell.str "A"], padRow [Cell.str "B"]] ∧
      d.rows.getD 0 [] = padRow [Cell.str "A"] ∧
      d.rows.getD 1 [] = padRow [Cell.str "B"] :=
  load_row_order_preserved.2 [] [] [Cell.str "City"] [Cell.str "A"] [Cell.null]
    [Cell.str "B"] (by decide) (by decide) (by decide) (by decide)

theorem get_metric_columns_spec_witness :
    get_metric_columns (some exFrame) = exFrame.cols.drop 1 :=
  get_metric_columns_spec.2.2.1 exFrame (by decide) (by decide)

theorem load_column_names_trimmed_witness :
    exFrame.cols = (read_excel exSheet (chosenHeader exSheet)).cols.map pyStrip :=
  (load_column_names_trimmed.1 exSheet exFrame rfl).1

theorem load_deterministic_no_cache_witness :
    (exFrame.cols = exFrame.cols ∧ exFrame.rows = exFrame.rows) ∧
    1 ≤ load_excel_reads (FileState.readable exSheet) :=
  ⟨load_deterministic_no_cache.1 (FileState.readable exSheet) exFrame exFrame rfl rfl,
   load_deterministic_no_cache.2 (FileState.readable exSheet) (by decide)⟩

theorem duplicate_keys_first_match_witness :
    ∃ d, load_excel (FileState.readable ⟨[[], [], [Cell.str "City"],
        [Cell.str "Austin", Cell.str "1"], [Cell.str "Austin", Cell.str "2"]]⟩) =
      Except.ok (some d) ∧
      d.rows = [padRow [Cell.str "Austin", Cell.str "1"],
                padRow [Cell.str "Austin", Cell.str "2"]] ∧
      make_bar_chart_row d (pyStrip "Austin") =
        some (padRow [Cell.str "Austin", Cell.str "1"]) :=
  duplicate_keys_first_match.2 [] [] [Cell.str "City"]
    [Cell.str "Austin", Cell.str "1"] [Cell.str "Austin", Cell.str "2"] "Austin"
    (by decide) (by decide) (by decide) (by decide)

theorem load_frame_values_untouched_witness :
    padRow [Cell.str "  Austin  ", Cell.str "10"] ∈
      (read_excel exSheet (chosenHeader exSheet)).rows :=
  load_frame_values_untouched.1 exSheet exFrame
    (padRow [Cell.str "  Austin  ", Cell.str "10"]) rfl (by decide)
